import Mathlib

/-!
Shallow embedding of `castv2-sender.js` (node-red-contrib-castv2).

The file models the two node classes of the source:

* `CastV2ConnectionNode` (the Connection Manager): connection state flags,
  the registered-sender map, `platformStatus`, the reconnect timer, and the
  handlers `register`, `deregister`, `connect`, `disconnect`, `reconnect`,
  `joinNodes`, the `close` handler and `sendPlatformCommandAsync`.
* `CastV2SenderNode` (the Sender Client): `receiver`/`adapter` attachment
  state, `getCommandApp`, `getAdapter`, the dispatch in `sendCommandAsync`
  and the media handler `sendMediaCommandAsync`.

JavaScript numbers appearing in commands are modelled as `Rat`; JS
truthiness of a number field is `some v` with `v ≠ 0`.  External transport
calls (`castv2-client`) are recorded as values of `TransportCall` /
`MediaOp` rather than executed.  Asynchronous resolution of a pending
promise is modelled as a separate event on the state machine.
-/

/-- A running remote application session as reported in a device status
snapshot (`session.appId` is what `joinNodes` compares against). -/
structure Session where
  appId : String
  sessionId : String
deriving DecidableEq

/-- Modelled from the spec: the two application descriptors of the sender's
capability table (`DefaultMediaReceiver` from the external `castv2-client`
package and `YouTubeReceiver` from the repository's `lib/` directory, which
is not part of the provided source).  Only their application identifiers
(`APP_ID`) matter to the core; they are distinct fixed strings. -/
inductive CastApp
  | defaultMediaReceiver
  | youTubeReceiver
deriving DecidableEq

/-- Modelled from the spec: the `APP_ID` constant of each application
descriptor; the two identifiers are distinct. -/
def CastApp.APP_ID : CastApp → String
  | .defaultMediaReceiver => "CC1AD845"
  | .youTubeReceiver => "233637DE"

/-- Modelled from the spec: the adapter modules in the repository's `lib/`
directory (not part of the provided source); only their identity matters. -/
inductive AdapterId
  | defaultMediaReceiverAdapter
  | youTubeReceiverAdapter
deriving DecidableEq

/-- A device-wide status snapshot.  `applications` is the (possibly absent)
list of active sessions, mirroring `status.applications` which may be
`undefined` in the source. -/
structure PlatformStatus where
  applications : Option (List Session)
deriving DecidableEq

/-- A session media status; only the `supportedMediaCommands` bitmask is
consulted by the source. -/
structure MediaStatus where
  supportedMediaCommands : Nat
deriving DecidableEq

/-- Inbound command shape `{ type, app?, volume?, time? }`. -/
structure Command where
  type : String
  app : Option String := none
  volume : Option Rat := none
  time : Option Rat := none
deriving DecidableEq

/-- Errors thrown by the source (`throw new Error(...)`). -/
inductive CastError
  | notConnected      -- "Not connected"
  | malformedCommand  -- "Malformed command"
  | notPlaying        -- "not playing"
  | malformedMedia    -- "Malformed media control command"
deriving DecidableEq

/-- Calls made against the transport handle (`node.client.*Async`). -/
inductive TransportCall
  | stop (receiver : Session)
  | getStatus
  | getVolume
  | setVolumeMuted (muted : Bool)
  | setVolumeLevel (level : Rat)
  | launch (app : Option CastApp)
  | join (activeSession : Session) (app : Option CastApp)
deriving DecidableEq

/-- Calls made against an attached receiver (`node.receiver.*Async`). -/
inductive MediaOp
  | getStatus
  | pause
  | play
  | seek (t : Rat)
  | stop
deriving DecidableEq

/-- Per-sender state of a `CastV2SenderNode` that the connection node can
see: its id, its capability table and its attachment fields. -/
structure SenderNodeState where
  id : Nat
  supportedApplications : List CastApp
  receiver : Option Session
  adapter : Option AdapterId
deriving DecidableEq

/-- State of a `CastV2ConnectionNode`.  `client` is the transport handle
(`node.client`), present (`some ()`) exactly when the source holds a
non-null `Client` object.  `reconnectTimeOut` records whether a reconnect
timer is currently scheduled; the source's `node.reconnectTimeOut = null`
assignment inside `connect` only drops the field reference and never
cancels the timer, so that assignment does not change this flag. -/
structure ConnState where
  connected : Bool
  connecting : Bool
  closing : Bool
  registeredNodes : List SenderNodeState
  platformStatus : Option PlatformStatus
  client : Option Unit
  reconnectTimeOut : Bool
deriving DecidableEq

/-- The initial state of a freshly created connection node. -/
def initState : ConnState :=
  { connected := false, connecting := false, closing := false,
    registeredNodes := [], platformStatus := none, client := none,
    reconnectTimeOut := false }

/-- Source list `this.platformCommands` of the connection node. -/
def platformCommands : List String :=
  ["CLOSE", "GET_VOLUME", "GET_CAST_STATUS", "MUTE", "UNMUTE", "VOLUME"]

/-- Source list `this.mediaCommands` of the sender node. -/
def mediaCommands : List String :=
  ["GET_STATUS", "PAUSE", "PLAY", "SEEK", "STOP"]

instance {ε α : Type} [DecidableEq ε] [DecidableEq α] : DecidableEq (Except ε α) := fun x y =>
  match x, y with
  | .ok a, .ok b =>
      if h : a = b then .isTrue (by rw [h]) else .isFalse (by intro he; cases he; exact h rfl)
  | .ok _, .error _ => .isFalse (by intro h; cases h)
  | .error _, .ok _ => .isFalse (by intro h; cases h)
  | .error e, .error f =>
      if h : e = f then .isTrue (by rw [h]) else .isFalse (by intro he; cases he; exact h rfl)

/-- Handler `sendPlatformCommandAsync(command, receiver)`.  The result lists the
transport calls issued; `ok none` marks the (never reached, see the
reachability theorems) case where the `connected` guard passed but the
handle is null, i.e. a null dereference.  The `VOLUME` guard mirrors
`command.volume && command.volume >= 0 && command.volume <= 100`, where the
leading conjunct is JS truthiness of the number (present and non-zero). -/
def sendPlatformCommandAsync (s : ConnState) (command : Command)
    (receiver : Option Session) : Except CastError (Option (List TransportCall)) :=
  if s.connected = false then .error .notConnected
  else
    match command.type with
    | "CLOSE" =>
        match receiver with
        | some r => .ok (s.client.map fun _ => [.stop r])
        | none => .ok (s.client.map fun _ => [.getStatus])
    | "GET_VOLUME" => .ok (s.client.map fun _ => [.getVolume, .getStatus])
    | "GET_CAST_STATUS" => .ok (s.client.map fun _ => [.getStatus])
    | "MUTE" => .ok (s.client.map fun _ => [.setVolumeMuted true, .getStatus])
    | "UNMUTE" => .ok (s.client.map fun _ => [.setVolumeMuted false, .getStatus])
    | "VOLUME" =>
        match command.volume with
        | some v =>
            if v ≠ 0 ∧ 0 ≤ v ∧ v ≤ 100 then
              .ok (s.client.map fun _ => [.setVolumeLevel (v / 100), .getStatus])
            else .error .malformedCommand
        | none => .error .malformedCommand
    | _ => .error .malformedCommand

/-- Handler `sendMediaCommandAsync(command)`, as a function of the media status the
initial `getStatusAsync` query returns (`none` models a null status: no
media loaded).  The result lists the receiver calls made, the leading
`getStatus` being that initial query.  The `SEEK` guard mirrors
`command.time && status.supportedMediaCommands & 2`. -/
def sendMediaCommandAsync (status : Option MediaStatus) (command : Command) :
    Except CastError (List MediaOp) :=
  if command.type = "GET_STATUS" then .ok [.getStatus]
  else
    match status with
    | none => .error .notPlaying
    | some st =>
        match command.type with
        | "PAUSE" =>
            .ok (.getStatus :: if st.supportedMediaCommands &&& 1 ≠ 0 then [.pause] else [])
        | "PLAY" => .ok [.getStatus, .play]
        | "SEEK" =>
            .ok (.getStatus ::
              match command.time with
              | some t =>
                  if t ≠ 0 ∧ st.supportedMediaCommands &&& 2 ≠ 0 then [.seek t] else []
              | none => [])
        | "STOP" => .ok [.getStatus, .stop]
        | _ => .error .malformedMedia

/-- Observable side effects of the connection node: the best-effort
`client.close()` attempt (recording whether the close threw, which the
source swallows), per-node `status(...)` indicator updates and per-node
`send(...)` messages. -/
structure NodeStatus where
  fill : String
  shape : String
  text : String
deriving DecidableEq

inductive Effect
  | clientClose (threw : Bool)
  | nodeStatus (id : Nat) (st : NodeStatus)
  | nodeSendPlatform (id : Nat) (status : PlatformStatus)
deriving DecidableEq

def disconnectedStatus : NodeStatus := { fill := "red", shape := "ring", text := "disconnected" }

def connectedStatus : NodeStatus := { fill := "green", shape := "ring", text := "connected" }

def connectingStatus : NodeStatus := { fill := "yellow", shape := "ring", text := "connecting" }

/-- Sender node `unjoin()`: clears `adapter` and `receiver` and reports the
connected-but-unattached status. -/
def unjoinNode (n : SenderNodeState) : SenderNodeState × Effect :=
  ({ n with adapter := none, receiver := none }, .nodeStatus n.id connectedStatus)

/-- Handler `disconnect()` of the connection node, with its effects.  `closeThrows`
is whether the transport's `close()` throws; the `try`/`catch` swallows it,
so the resulting state does not depend on it.  The close is attempted only
when connected or connecting, then `client` and `platformStatus` are reset,
every registered node is unjoined, and the disconnected status is
broadcast. -/
def disconnectE (s : ConnState) (closeThrows : Bool) : ConnState × List Effect :=
  let closeEffs := if s.connected = true ∨ s.connecting = true then
      [Effect.clientClose closeThrows] else []
  let pairs := s.registeredNodes.map unjoinNode
  let nodes := pairs.map (·.1)
  ({ s with client := none, platformStatus := none, connected := false,
            connecting := false, registeredNodes := nodes },
   closeEffs ++ pairs.map (·.2) ++ nodes.map fun n => .nodeStatus n.id disconnectedStatus)

def disconnectF (s : ConnState) : ConnState := (disconnectE s false).1

/-- Handler `reconnect()`: resets the flags and, unless closing or no node remains
registered, cancels any pending reconnect timer and schedules a new one
(net effect on the single-timer flag: it is set). -/
def reconnectF (s : ConnState) : ConnState :=
  if s.closing = false ∧ s.registeredNodes ≠ [] then
    { s with connected := false, connecting := false, reconnectTimeOut := true }
  else { s with connected := false, connecting := false }

/-- Outcome of the Join Protocol for one sender, from a status snapshot and
its capability table: the first active session whose `appId` matches some
supported application, paired (as in the source's second `find`) with the
first supported application matching that session's `appId`. -/
def joinOutcome (ps : PlatformStatus) (apps : List CastApp) : Option (Session × CastApp) :=
  match ps.applications with
  | none => none
  | some sessions =>
      match sessions.find? (fun sess => apps.any fun a => a.APP_ID = sess.appId) with
      | none => none
      | some sess =>
          match apps.find? (fun a => a.APP_ID = sess.appId) with
          | none => none
          | some a => some (sess, a)

/-- Lookup `getAdapter(castV2App)` of the sender node. -/
def getAdapter (app : CastApp) : Option AdapterId :=
  if app.APP_ID = CastApp.defaultMediaReceiver.APP_ID then some .defaultMediaReceiverAdapter
  else if app.APP_ID = CastApp.youTubeReceiver.APP_ID then some .youTubeReceiverAdapter
  else none

/-- The settled effect on one sender of the Join Protocol: `join` (through
`joinSessionAsync` and `initReceiver`, which sets `adapter` from
`getAdapter` and `receiver` to the joined session) on a match, `unjoin`
otherwise. -/
def joinNodeUpd (ps : PlatformStatus) (n : SenderNodeState) : SenderNodeState :=
  match joinOutcome ps n.supportedApplications with
  | some (sess, app) => { n with adapter := getAdapter app, receiver := some sess }
  | none => { n with adapter := none, receiver := none }

/-- Handler `joinNodes()`: throws "Not connected" unless connected with a known
platform status, otherwise applies the Join Protocol to every registered
node. -/
def joinNodesF (s : ConnState) : Except CastError ConnState :=
  match s.connected, s.platformStatus with
  | true, some ps =>
      .ok { s with registeredNodes := s.registeredNodes.map (joinNodeUpd ps) }
  | _, _ => .error .notConnected

/-- The synchronous body of `connect()`: guarded on neither connected nor
connecting; creates a fresh client handle, sets `connecting` and reports
the connecting status to every registered node.  (The source also assigns
`node.reconnectTimeOut = null`, which drops the field reference without
cancelling a scheduled timer, so the timer flag is unchanged.) -/
def connectF (s : ConnState) : ConnState × List Effect :=
  if s.connected = false ∧ s.connecting = false then
    ({ s with connecting := true, client := some () },
     s.registeredNodes.map fun n => .nodeStatus n.id connectingStatus)
  else (s, [])

/-- The freshly created sender node as registered by `register` (its
capability table is the fixed `supportedApplications` list of the source,
and it starts unattached). -/
def mkSenderNode (nid : Nat) : SenderNodeState :=
  { id := nid,
    supportedApplications := [CastApp.defaultMediaReceiver, CastApp.youTubeReceiver],
    receiver := none, adapter := none }

def registerApplied (s : ConnState) (nodes : List SenderNodeState) : ConnState :=
  if nodes.length = 1 then (connectF { s with registeredNodes := nodes }).1
  else { s with registeredNodes := nodes }

/-- Handler `register(castV2Node)`: adds the node under its id (an overwrite of an
existing id keeps the key set unchanged) and calls `connect()` when the map
now holds exactly one node. -/
def registerStep (s : ConnState) (nid : Nat) : ConnState :=
  registerApplied s
    (if s.registeredNodes.any fun n => n.id = nid then s.registeredNodes
     else s.registeredNodes ++ [mkSenderNode nid])

/-- Handler `deregister(castV2Node, done)`: removes the node, then — the removal
precedes this check — returns at once when closing; otherwise disconnects
when the map is now empty while connected or connecting.  The second and
third components count invocations of `done` and of `disconnect`. -/
def deregisterChecks (s1 : ConnState) : ConnState × Nat × Nat :=
  if s1.closing = true then (s1, 1, 0)
  else if s1.registeredNodes = [] ∧ (s1.connected = true ∨ s1.connecting = true) then
    (disconnectF s1, 1, 1)
  else (s1, 1, 0)

def deregisterF (s : ConnState) (nid : Nat) : ConnState × Nat × Nat :=
  deregisterChecks { s with registeredNodes := s.registeredNodes.filter fun n => n.id != nid }

/-- The node's `close` handler: sets `closing`, runs `disconnect()` (and
does not touch the reconnect timer). -/
def closeHandlerF (s : ConnState) : ConnState := disconnectF { s with closing := true }

/-- Resolution of a pending `connectAsync` followed by the successful
`getStatusAsync` continuation: sets connected, stores the status, runs
`joinNodes` and forwards the snapshot.  It is enabled only while the
connect attempt is still alive (`connecting` with a live handle): closing
the transport destroys the socket, so a closed handle never delivers its
connect callback.  A throw inside the continuation is caught by the
promise chain's `catch`, which disconnects and reconnects. -/
def connectOkApplied (s1 : ConnState) : ConnState :=
  match joinNodesF s1 with
  | .ok s2 => s2
  | .error _ => reconnectF (disconnectF s1)

def connectOkStep (s : ConnState) (ps : PlatformStatus) : ConnState :=
  if s.connecting = true ∧ s.client ≠ none then
    connectOkApplied { s with connected := true, connecting := false, platformStatus := some ps }
  else s

/-- Failure of a pending connect attempt (the promise chain's `catch`):
disconnect, then reconnect. -/
def connectFailStep (s : ConnState) : ConnState :=
  if s.connecting = true then reconnectF (disconnectF s) else s

/-- The client's `status` event handler: stores the snapshot and re-runs
the Join Protocol.  Enabled only while a live connected handle exists. -/
def statusApplied (s1 : ConnState) : ConnState :=
  match joinNodesF s1 with
  | .ok s2 => s2
  | .error _ => s1

def statusEvStep (s : ConnState) (ps : PlatformStatus) : ConnState :=
  if s.connected = true ∧ s.client ≠ none then
    statusApplied { s with platformStatus := some ps }
  else s

/-- The client's `error` or `close` event handler: disconnect, then
reconnect.  Enabled only while a handle exists. -/
def errorEvStep (s : ConnState) : ConnState :=
  if s.client ≠ none then reconnectF (disconnectF s) else s

/-- Expiry of the scheduled reconnect timer: consumes the timer and calls
`connect()` (which checks only `connected`/`connecting`, not `closing`). -/
def timerFireStep (s : ConnState) : ConnState :=
  if s.reconnectTimeOut = true then (connectF { s with reconnectTimeOut := false }).1
  else s

/-- The events driving a `CastV2ConnectionNode`. -/
inductive Event
  | register (nid : Nat)
  | deregister (nid : Nat)
  | connectOk (ps : PlatformStatus)
  | connectFail
  | statusEv (ps : PlatformStatus)
  | errorEv
  | ownerClose
  | timerFire
deriving DecidableEq

def step (s : ConnState) : Event → ConnState
  | .register nid => registerStep s nid
  | .deregister nid => (deregisterF s nid).1
  | .connectOk ps => connectOkStep s ps
  | .connectFail => connectFailStep s
  | .statusEv ps => statusEvStep s ps
  | .errorEv => errorEvStep s
  | .ownerClose => closeHandlerF s
  | .timerFire => timerFireStep s

def runEvents (evs : List Event) : ConnState := List.foldl step initState evs

/-- A state of the connection node reachable from creation. -/
def Reachable (s : ConnState) : Prop := ∃ evs, runEvents evs = s

/-- Handler `launchAsync(castV2App)`: throws when not connected, else calls the
transport's `launch` (so a null descriptor is passed through to the
transport).  `ok none` marks a null client dereference. -/
def launchAsync (s : ConnState) (app : Option CastApp) :
    Except CastError (Option TransportCall) :=
  if s.connected = false then .error .notConnected
  else .ok (s.client.map fun _ => .launch app)

/-- Handler `joinSessionAsync(activeSession, castv2App)`: throws when not
connected, else calls the transport's `join`. -/
def joinSessionAsync (s : ConnState) (activeSession : Session) (app : Option CastApp) :
    Except CastError (Option TransportCall) :=
  if s.connected = false then .error .notConnected
  else .ok (s.client.map fun _ => .join activeSession app)

/-- Lookup `getCommandApp(command)` of the sender node: resolves `command.app` to
an application descriptor, `null` (here `none`) for anything unknown. -/
def getCommandApp (command : Command) : Option CastApp :=
  match command.app with
  | some "DefaultMediaReceiver" => some .defaultMediaReceiver
  | some "YouTube" => some .youTubeReceiver
  | _ => none

/-- The route `sendCommandAsync(command)` takes: delegate to
`sendPlatformCommandAsync`, or (when unattached) launch the resolved app —
possibly `none` — and retry, or run the media handler, or hand the raw
command to the adapter. -/
inductive DispatchAction
  | platform (receiver : Option Session)
  | launchThenRetry (app : Option CastApp)
  | media
  | appCommand
deriving DecidableEq

/-- The dispatch decision of `sendCommandAsync(command)`. -/
def sendCommandDispatch (n : SenderNodeState) (command : Command) : DispatchAction :=
  if platformCommands.contains command.type then .platform n.receiver
  else if n.receiver = none ∨ n.adapter = none then .launchThenRetry (getCommandApp command)
  else if mediaCommands.contains command.type then .media
  else .appCommand

/-- The register/deregister call alphabet of the public contract. -/
inductive RDCall
  | register (nid : Nat)
  | deregister (nid : Nat)
deriving DecidableEq

/-- Asynchronous settling after a call: a connect attempt left in flight
resolves successfully (the device answers with some status snapshot; the
snapshot's content is irrelevant to the connection flags). -/
def settle (s : ConnState) : ConnState :=
  if s.connecting = true then connectOkStep s { applications := none } else s

/-- One public call, followed by settling. -/
def applyCall (s : ConnState) : RDCall → ConnState
  | .register nid => settle (registerStep s nid)
  | .deregister nid => settle (deregisterF s nid).1

/-- A sequence of register/deregister calls against a fresh connection
node, each settling before the next. -/
def runCalls (calls : List RDCall) : ConnState := List.foldl applyCall initState calls

/-- A connection node that is connected with a live handle (the state the
device-command claims start from). -/
def connectedState : ConnState :=
  { initState with connected := true, client := some () }

/-- A closing connection node that still has one sender registered. -/
def closingState : ConnState :=
  { initState with closing := true, registeredNodes := [mkSenderNode 1] }

/-- Following the spec's words: a session matches a capability table when
its application identifier equals some supported application's `APP_ID`. -/
def sessionMatches (apps : List CastApp) (sess : Session) : Prop :=
  ∃ a ∈ apps, a.APP_ID = sess.appId

instance (apps : List CastApp) (sess : Session) : Decidable (sessionMatches apps sess) := by
  unfold sessionMatches; infer_instance

/-- Following the spec's words: `sess` is the first session of `sessions`
(in device declaration order) matching the capability table `apps`. -/
def isFirstMatchingSession (sessions : List Session) (apps : List CastApp)
    (sess : Session) : Prop :=
  ∃ i : Fin sessions.length, sessions.get i = sess ∧ sessionMatches apps sess ∧
    ∀ j : Fin sessions.length, (j : Nat) < (i : Nat) → ¬ sessionMatches apps (sessions.get j)

/-- Following the spec's words: `a` is the first capability of `apps` (in
declaration order) whose identifier equals `appId`. -/
def isFirstMatchingApp (apps : List CastApp) (appId : String) (a : CastApp) : Prop :=
  ∃ i : Fin apps.length, apps.get i = a ∧ a.APP_ID = appId ∧
    ∀ j : Fin apps.length, (j : Nat) < (i : Nat) → ¬ (apps.get j).APP_ID = appId

/-- Following the spec's words: the Join Protocol's outcome for one sender
is the pair of the first matching session and the capability resolved for
it. -/
def specJoinTarget (ps : PlatformStatus) (apps : List CastApp) (sess : Session)
    (a : CastApp) : Prop :=
  ∃ sessions, ps.applications = some sessions ∧
    isFirstMatchingSession sessions apps sess ∧ isFirstMatchingApp apps sess.appId a

theorem find?_first_char {α : Type} (p : α → Bool) (l : List α) (a : α) :
    l.find? p = some a ↔
      ∃ i : Fin l.length, l.get i = a ∧ p a = true ∧
        ∀ j : Fin l.length, (j : Nat) < (i : Nat) → p (l.get j) = false := by
  rw [List.find?_eq_some_iff_getElem]
  constructor
  · rintro ⟨hpa, i, hi, hget, hmin⟩
    refine ⟨⟨i, hi⟩, hget, hpa, fun j hj => ?_⟩
    have := hmin j hj
    simpa using this
  · rintro ⟨i, hget, hpa, hmin⟩
    refine ⟨hpa, i, i.isLt, hget, fun j hj => ?_⟩
    have := hmin ⟨j, lt_trans hj i.isLt⟩ hj
    simpa using this

theorem sessionMatches_any (apps : List CastApp) (sess : Session) :
    (apps.any fun a => a.APP_ID = sess.appId) = true ↔ sessionMatches apps sess := by
  simp [sessionMatches, List.any_eq_true]

theorem find?_first_session (sessions : List Session) (apps : List CastApp) (sess : Session) :
    (sessions.find? fun s => apps.any fun a => a.APP_ID = s.appId) = some sess
      ↔ isFirstMatchingSession sessions apps sess := by
  rw [find?_first_char, isFirstMatchingSession]
  constructor
  · rintro ⟨i, hget, hpa, hmin⟩
    refine ⟨i, hget, (sessionMatches_any apps sess).mp hpa, fun j hj hm => ?_⟩
    have := hmin j hj
    rw [← Bool.not_eq_true, sessionMatches_any] at this
    exact this hm
  · rintro ⟨i, hget, hpa, hmin⟩
    refine ⟨i, hget, (sessionMatches_any apps sess).mpr hpa, fun j hj => ?_⟩
    rw [← Bool.not_eq_true, sessionMatches_any]
    exact hmin j hj

theorem find?_first_app (apps : List CastApp) (appId : String) (a : CastApp) :
    (apps.find? fun x => x.APP_ID = appId) = some a ↔ isFirstMatchingApp apps appId a := by
  rw [find?_first_char, isFirstMatchingApp]
  constructor
  · rintro ⟨i, hget, hpa, hmin⟩
    refine ⟨i, hget, by simpa using hpa, fun j hj hm => ?_⟩
    have := hmin j hj
    simp at this
    exact this hm
  · rintro ⟨i, hget, hpa, hmin⟩
    refine ⟨i, hget, by simpa using hpa, fun j hj => ?_⟩
    simp
    exact hmin j hj

theorem first_session_unique (sessions : List Session) (apps : List CastApp)
    (x y : Session) (hx : isFirstMatchingSession sessions apps x)
    (hy : isFirstMatchingSession sessions apps y) : x = y := by
  rw [← find?_first_session] at hx hy
  rw [hx] at hy
  exact Option.some.inj hy

theorem first_app_unique (apps : List CastApp) (appId : String)
    (x y : CastApp) (hx : isFirstMatchingApp apps appId x)
    (hy : isFirstMatchingApp apps appId y) : x = y := by
  rw [← find?_first_app] at hx hy
  rw [hx] at hy
  exact Option.some.inj hy

/-- The code's `joinOutcome` computes exactly the spec's join target. -/
theorem joinOutcome_eq_some (ps : PlatformStatus) (apps : List CastApp)
    (sess : Session) (a : CastApp) :
    joinOutcome ps apps = some (sess, a) ↔ specJoinTarget ps apps sess a := by
  unfold joinOutcome specJoinTarget
  cases happ : ps.applications with
  | none => simp
  | some sessions =>
      simp only [Option.some.injEq]
      constructor
      · intro h
        split at h
        · exact absurd h (by simp)
        · next s0 hfind =>
            split at h
            · exact absurd h (by simp)
            · next a0 hfind2 =>
                simp only [Option.some.injEq, Prod.mk.injEq] at h
                obtain ⟨rfl, rfl⟩ := h
                exact ⟨sessions, rfl, (find?_first_session _ _ _).mp hfind,
                  (find?_first_app _ _ _).mp hfind2⟩
      · rintro ⟨sessions', heq, hsess, happf⟩
        subst heq
        rw [(find?_first_session sessions apps sess).mpr hsess]
        simp only [(find?_first_app apps sess.appId a).mpr happf]

/-- The code's `joinOutcome` is `none` exactly when no active session
matches the capability table. -/
theorem joinOutcome_eq_none (ps : PlatformStatus) (apps : List CastApp) :
    joinOutcome ps apps = none ↔
      (ps.applications = none ∨
        ∃ sessions, ps.applications = some sessions ∧
          ∀ sess ∈ sessions, ¬ sessionMatches apps sess) := by
  unfold joinOutcome
  cases happ : ps.applications with
  | none => simp
  | some sessions =>
      simp only [reduceCtorEq, false_or, Option.some.injEq]
      constructor
      · intro h
        split at h
        · next hfind =>
            refine ⟨sessions, rfl, fun sess hmem hm => ?_⟩
            have hnone := List.find?_eq_none.mp hfind sess hmem
            rw [sessionMatches_any] at hnone
            exact hnone hm
        · next s0 hfind =>
            have hs0 : sessionMatches apps s0 := by
              have hp := List.find?_some hfind
              simpa [sessionMatches_any] using hp
            obtain ⟨a0, ha0mem, ha0⟩ := hs0
            split at h
            · next hfind2 =>
                have hn := List.find?_eq_none.mp hfind2 a0 ha0mem
                simp [ha0] at hn
            · exact absurd h (by simp)
      · rintro ⟨sessions', heq, hall⟩
        subst heq
        have hfind : (sessions.find? fun s => apps.any fun x => x.APP_ID = s.appId) = none := by
          rw [List.find?_eq_none]
          intro sess hmem
          rw [sessionMatches_any]
          exact hall sess hmem
        rw [hfind]

/-- C1 counterexample: `volume = 0` is a number in `[0,100]`, yet the
`VOLUME` command fails with `MalformedCommand` on a connected node, because
the guard `command.volume && ...` treats the number `0` as falsy. -/
theorem volume_zero_rejected_counterexample :
    (0 ≤ (0 : Rat) ∧ (0 : Rat) ≤ 100) ∧
    sendPlatformCommandAsync connectedState { type := "VOLUME", volume := some 0 } none
      = .error .malformedCommand :=
  ⟨⟨le_refl 0, by norm_num⟩, rfl⟩

/-- C1 (amended): on a connected node, a `VOLUME` command succeeds iff its
`volume` field is truthy (present and non-zero) and in `[0,100]` — that is,
iff it lies in `(0,100]` — in which case the transport's `setVolume` is
called with `level = volume/100` and the full status is then fetched; any
other `volume` (absent, zero, negative, or above 100) fails with
`MalformedCommand`. -/
theorem volume_command_amended (s : ConnState) (rcv : Option Session) (vol : Option Rat)
    (h : s.connected = true) :
    (∀ v, vol = some v → v ≠ 0 → 0 ≤ v → v ≤ 100 →
      sendPlatformCommandAsync s { type := "VOLUME", volume := vol } rcv
        = .ok (s.client.map fun _ => [.setVolumeLevel (v / 100), .getStatus]))
    ∧ (∀ v, vol = some v → ¬(v ≠ 0 ∧ 0 ≤ v ∧ v ≤ 100) →
      sendPlatformCommandAsync s { type := "VOLUME", volume := vol } rcv
        = .error .malformedCommand)
    ∧ (vol = none →
      sendPlatformCommandAsync s { type := "VOLUME", volume := vol } rcv
        = .error .malformedCommand) := by
  refine ⟨?_, ?_, ?_⟩
  · rintro v rfl hne h0 h100
    simp [sendPlatformCommandAsync, h, hne, h0, h100]
  · rintro v rfl hcond
    simp only [sendPlatformCommandAsync, h, Bool.true_eq_false, if_false]
    rw [if_neg hcond]
  · rintro rfl
    simp [sendPlatformCommandAsync, h]

/-- C1 witness. -/
theorem volume_command_amended_witness :
    connectedState.connected = true ∧
    sendPlatformCommandAsync connectedState { type := "VOLUME", volume := some 50 } none
      = .ok (some [.setVolumeLevel (50 / 100), .getStatus]) := by
  refine ⟨rfl, ?_⟩
  have h := (volume_command_amended connectedState none (some 50) rfl).1 50 rfl
    (by norm_num) (by norm_num) (by norm_num)
  simpa using h

/-- C2: the code contradicts the claim (and its own "exit gracefully"
comment) — a media command other than `GET_STATUS` issued while the
session's media status is null throws `Error("not playing")`, which
propagates to the command's completion as a failure instead of completing
as a successful no-op. -/
theorem media_command_idle_throws :
    sendMediaCommandAsync none { type := "PAUSE" } = .error .notPlaying ∧
    sendMediaCommandAsync none { type := "PLAY" } = .error .notPlaying ∧
    sendMediaCommandAsync none { type := "SEEK", time := some 10 } = .error .notPlaying ∧
    sendMediaCommandAsync none { type := "STOP" } = .error .notPlaying :=
  ⟨rfl, rfl, rfl, rfl⟩

/-- C6: for an attached sender with a non-null media status, `PLAY` and
`STOP` always execute, `PAUSE` executes iff bit 1 of
`supportedMediaCommands` is set, `SEEK` executes iff bit 2 is set and the
command carries a truthy `time`; an unmet gate makes the handler return
(only the initial status query happened) without error. -/
theorem media_gating (st : MediaStatus) (cmd : Command) :
    (cmd.type = "PLAY" → sendMediaCommandAsync (some st) cmd = .ok [.getStatus, .play])
  ∧ (cmd.type = "STOP" → sendMediaCommandAsync (some st) cmd = .ok [.getStatus, .stop])
  ∧ (cmd.type = "PAUSE" →
      (st.supportedMediaCommands &&& 1 ≠ 0 →
        sendMediaCommandAsync (some st) cmd = .ok [.getStatus, .pause])
    ∧ (st.supportedMediaCommands &&& 1 = 0 →
        sendMediaCommandAsync (some st) cmd = .ok [.getStatus]))
  ∧ (cmd.type = "SEEK" →
      (∀ t, cmd.time = some t → t ≠ 0 → st.supportedMediaCommands &&& 2 ≠ 0 →
        sendMediaCommandAsync (some st) cmd = .ok [.getStatus, .seek t])
    ∧ ((cmd.time = none ∨ cmd.time = some 0 ∨ st.supportedMediaCommands &&& 2 = 0) →
        sendMediaCommandAsync (some st) cmd = .ok [.getStatus])) := by
  refine ⟨fun h => ?_, fun h => ?_, fun h => ⟨fun hb => ?_, fun hb => ?_⟩,
    fun h => ⟨fun t ht htne hb => ?_, fun hcase => ?_⟩⟩
  · simp [sendMediaCommandAsync, h]
  · simp [sendMediaCommandAsync, h]
  · simp [sendMediaCommandAsync, h, hb]
    rw [Nat.and_one_is_mod] at hb
    omega
  · simp [sendMediaCommandAsync, h, hb]
  · simp [sendMediaCommandAsync, h, ht, htne, hb]
  · rcases hcase with ht | ht | hb
    · simp [sendMediaCommandAsync, h, ht]
    · simp [sendMediaCommandAsync, h, ht]
    · simp [sendMediaCommandAsync, h, hb]
      cases cmd.time <;> simp

/-- C6 witness. -/
theorem media_gating_witness :
    sendMediaCommandAsync (some { supportedMediaCommands := 3 }) { type := "PAUSE" }
      = .ok [.getStatus, .pause] :=
  ((media_gating { supportedMediaCommands := 3 } { type := "PAUSE" }).2.2.1 rfl).1 (by decide)

/-- C7 counterexample: an unattached sender dispatching
`{type := "FOO", app := "Spotify"}` resolves no application
(`getCommandApp` yields `null`), yet the dispatch does not fail with any
`UnknownApplication` error — it requests a launch anyway, and `launchAsync`
on a connected manager passes the null descriptor to the transport's
`launch`. -/
theorem unknown_app_counterexample :
    getCommandApp { type := "FOO", app := some "Spotify" } = none ∧
    sendCommandDispatch (mkSenderNode 1) { type := "FOO", app := some "Spotify" }
      = .launchThenRetry none ∧
    launchAsync connectedState none = .ok (some (.launch none)) :=
  ⟨rfl, rfl, rfl⟩

/-- C7 (amended): for a non-device-wide command dispatched by an unattached
sender whose `app` field does not resolve in the capability table,
`getCommandApp` yields no descriptor and the dispatch nevertheless requests
a launch from the Connection Manager, passing the null descriptor; no
`UnknownApplication` failure is raised. -/
theorem unknown_app_amended (n : SenderNodeState) (cmd : Command)
    (h1 : n.receiver = none ∨ n.adapter = none)
    (h2 : platformCommands.contains cmd.type = false)
    (h3 : getCommandApp cmd = none) :
    sendCommandDispatch n cmd = .launchThenRetry none := by
  unfold sendCommandDispatch
  rw [h2, if_neg (by simp), if_pos h1, h3]

/-- C7 witness. -/
theorem unknown_app_amended_witness :
    ((mkSenderNode 1).receiver = none ∨ (mkSenderNode 1).adapter = none) ∧
    sendCommandDispatch (mkSenderNode 1) { type := "STOP_APP", app := some "Netflix" }
      = .launchThenRetry none :=
  ⟨Or.inl rfl,
   unknown_app_amended (mkSenderNode 1) { type := "STOP_APP", app := some "Netflix" }
     (Or.inl rfl) (by decide) rfl⟩

/-- C8 counterexample: with the manager closing and one sender registered,
`deregister` does have a side effect — the sender is removed before the
closing check — so it does not "complete immediately without side
effects". -/
theorem deregister_closing_counterexample :
    closingState.closing = true ∧
    (deregisterF closingState 1).1.registeredNodes = [] ∧
    closingState.registeredNodes ≠ [] :=
  ⟨rfl, rfl, by decide⟩

/-- C8 (amended): `deregister(sender, onComplete)` always invokes
`onComplete` exactly once and never disconnects more than once; it always
removes the sender first, and if the manager is already closing it then
completes immediately with no disconnect and no further state change;
otherwise, if the set is now empty while connected or connecting, it
initiates disconnect exactly once. -/
theorem deregister_amended (s : ConnState) (nid : Nat) :
    (deregisterF s nid).2.1 = 1
  ∧ (deregisterF s nid).2.2 ≤ 1
  ∧ (s.closing = true →
      (deregisterF s nid).2.2 = 0 ∧
      (deregisterF s nid).1
        = { s with registeredNodes := s.registeredNodes.filter fun n => n.id != nid })
  ∧ (s.closing = false → s.registeredNodes.filter (fun n => n.id != nid) = [] →
      (s.connected = true ∨ s.connecting = true) → (deregisterF s nid).2.2 = 1) := by
  unfold deregisterF deregisterChecks
  refine ⟨?_, ?_, fun hc => ?_, fun hc he hcon => ?_⟩
  · split
    · rfl
    · split <;> rfl
  · split
    · exact Nat.zero_le 1
    · split
      · exact le_refl 1
      · exact Nat.zero_le 1
  · rw [if_pos hc]
    exact ⟨rfl, rfl⟩
  · rw [if_neg (by simp [hc]), if_pos (by simpa [he] using hcon)]

/-- A sample active session of the default media receiver application. -/
def sessionA : Session := { appId := "CC1AD845", sessionId := "s1" }

/-- A sender node attached to `sessionA`. -/
def attachedSender : SenderNodeState :=
  { mkSenderNode 1 with receiver := some sessionA, adapter := some .defaultMediaReceiverAdapter }

/-- A connected node with one attached sender (for concrete instances). -/
def attachedState : ConnState :=
  { initState with connected := true, client := some (),
                   platformStatus := some (PlatformStatus.mk (some [sessionA])),
                   registeredNodes := [attachedSender] }

theorem reconnectF_client (s : ConnState) : (reconnectF s).client = s.client := by
  unfold reconnectF; split <;> rfl

theorem reconnectF_platformStatus (s : ConnState) :
    (reconnectF s).platformStatus = s.platformStatus := by
  unfold reconnectF; split <;> rfl

theorem reconnectF_registeredNodes (s : ConnState) :
    (reconnectF s).registeredNodes = s.registeredNodes := by
  unfold reconnectF; split <;> rfl

/-- C9: every teardown out of Connecting/Connected — `disconnect()` itself,
and the transport error/close handlers which run `disconnect()` then
`reconnect()` — attempts the transport close whether or not the close
throws (the throw is discarded and does not change the resulting state),
clears `platformStatus` and the handle, detaches (unjoins) every registered
sender, and broadcasts the "disconnected" status to all of them. -/
theorem disconnect_teardown (s : ConnState) (b : Bool)
    (h : s.connected = true ∨ s.connecting = true) :
    (disconnectE s b).1.client = none
  ∧ (disconnectE s b).1.platformStatus = none
  ∧ (disconnectE s b).1.connected = false
  ∧ (disconnectE s b).1.connecting = false
  ∧ (∀ n ∈ (disconnectE s b).1.registeredNodes, n.receiver = none ∧ n.adapter = none)
  ∧ Effect.clientClose b ∈ (disconnectE s b).2
  ∧ (disconnectE s true).1 = (disconnectE s false).1
  ∧ (∀ n ∈ s.registeredNodes, Effect.nodeStatus n.id disconnectedStatus ∈ (disconnectE s b).2)
  ∧ (reconnectF (disconnectE s b).1).client = none
  ∧ (reconnectF (disconnectE s b).1).platformStatus = none
  ∧ (∀ n ∈ (reconnectF (disconnectE s b).1).registeredNodes,
      n.receiver = none ∧ n.adapter = none) := by
  have hnodes : ∀ n ∈ (disconnectE s b).1.registeredNodes,
      n.receiver = none ∧ n.adapter = none := by
    intro n hn
    simp only [disconnectE, List.map_map, List.mem_map] at hn
    obtain ⟨m, _, rfl⟩ := hn
    exact ⟨rfl, rfl⟩
  refine ⟨rfl, rfl, rfl, rfl, hnodes, ?_, rfl, ?_, ?_, ?_, ?_⟩
  · simp only [disconnectE]
    rw [if_pos h]
    exact List.mem_append_left _ (List.mem_append_left _ (List.mem_singleton.mpr rfl))
  · intro n hn
    simp only [disconnectE]
    refine List.mem_append_right _ ?_
    simp only [List.map_map, List.mem_map]
    exact ⟨n, hn, rfl⟩
  · rw [reconnectF_client]; rfl
  · rw [reconnectF_platformStatus]; rfl
  · rw [reconnectF_registeredNodes]
    exact hnodes

/-- C9 witness. -/
theorem disconnect_teardown_witness :
    (attachedState.connected = true ∨ attachedState.connecting = true) ∧
    (disconnectE attachedState true).1.platformStatus = none ∧
    Effect.clientClose true ∈ (disconnectE attachedState true).2 := by
  have h := disconnect_teardown attachedState true (Or.inl rfl)
  exact ⟨Or.inl rfl, h.2.1, h.2.2.2.2.2.1⟩

/-- C3 counterexample: a transport error while one sender is registered
schedules a reconnect; the owner's shutdown (`closing := true`, run through
the close handler) does not cancel that pending timer, and when the timer
fires, `connect()` executes anyway — the node re-enters Connecting with a
fresh transport handle although `closing` is set. -/
theorem closing_reconnect_counterexample :
    (runEvents [.register 1, .errorEv, .ownerClose]).closing = true ∧
    (runEvents [.register 1, .errorEv, .ownerClose]).reconnectTimeOut = true ∧
    (runEvents [.register 1, .errorEv, .ownerClose, .timerFire]).closing = true ∧
    (runEvents [.register 1, .errorEv, .ownerClose, .timerFire]).connecting = true ∧
    (runEvents [.register 1, .errorEv, .ownerClose, .timerFire]).client ≠ none :=
  ⟨rfl, rfl, rfl, rfl, by decide⟩

/-- C3 (amended): once `closing` is set, `reconnect()` schedules no new
connect attempt (it only resets the connection flags); however the owner's
close handler does not cancel a pending scheduled reconnect, and
`connect()` honors a timer firing after closing, since its guard checks
only `connected`/`connecting` and never `closing`. -/
theorem closing_reconnect_amended (s : ConnState) (h : s.closing = true) :
    reconnectF s = { s with connected := false, connecting := false }
  ∧ (∀ s0 : ConnState, (closeHandlerF s0).reconnectTimeOut = s0.reconnectTimeOut)
  ∧ (∀ s0 : ConnState, ∀ b : Bool,
      (connectF { s0 with closing := b }).1 = { (connectF s0).1 with closing := b }) := by
  refine ⟨?_, fun s0 => rfl, fun s0 b => ?_⟩
  · unfold reconnectF
    rw [if_neg (by simp [h])]
  · by_cases hc : s0.connected = false ∧ s0.connecting = false
    · simp [connectF, hc]
    · simp [connectF, hc]

/-- C3 witness. -/
theorem closing_reconnect_amended_witness :
    closingState.closing = true ∧
    reconnectF closingState = { closingState with connected := false, connecting := false } :=
  ⟨rfl, (closing_reconnect_amended closingState rfl).1⟩

theorem joinNodeUpd_idem (ps : PlatformStatus) (n : SenderNodeState) :
    joinNodeUpd ps (joinNodeUpd ps n) = joinNodeUpd ps n := by
  unfold joinNodeUpd
  cases ho : joinOutcome ps n.supportedApplications with
  | none => simp [ho]
  | some pr => cases pr with
    | mk sess app => simp [ho]

/-- C5: after a status broadcast (connected, with a stored snapshot),
`joinNodes` succeeds and updates every registered sender deterministically
from that snapshot: a sender for which the spec's join target exists — the
first active session whose application identifier matches a supported
capability, with the first matching capability — is attached to exactly
that session with that capability's adapter; a sender with no matching
session is unjoined.  Re-running `joinNodes` on the resulting state (same
snapshot) changes nothing. -/
theorem join_protocol (s : ConnState) (ps : PlatformStatus)
    (h1 : s.connected = true) (h2 : s.platformStatus = some ps) :
    joinNodesF s = .ok { s with registeredNodes := s.registeredNodes.map (joinNodeUpd ps) }
  ∧ (∀ n ∈ s.registeredNodes, ∀ sess a, specJoinTarget ps n.supportedApplications sess a →
      (joinNodeUpd ps n).receiver = some sess ∧ (joinNodeUpd ps n).adapter = getAdapter a)
  ∧ (∀ n ∈ s.registeredNodes, (¬ ∃ sess a, specJoinTarget ps n.supportedApplications sess a) →
      (joinNodeUpd ps n).receiver = none ∧ (joinNodeUpd ps n).adapter = none)
  ∧ (∀ s', joinNodesF s = .ok s' → joinNodesF s' = .ok s') := by
  have hok : joinNodesF s
      = .ok { s with registeredNodes := s.registeredNodes.map (joinNodeUpd ps) } := by
    unfold joinNodesF
    rw [h1, h2]
  refine ⟨hok, ?_, ?_, ?_⟩
  · intro n _ sess a htgt
    have ho : joinOutcome ps n.supportedApplications = some (sess, a) :=
      (joinOutcome_eq_some ps n.supportedApplications sess a).mpr htgt
    unfold joinNodeUpd
    rw [ho]
    exact ⟨rfl, rfl⟩
  · intro n _ hne
    cases ho : joinOutcome ps n.supportedApplications with
    | none =>
        unfold joinNodeUpd
        rw [ho]
        exact ⟨rfl, rfl⟩
    | some pr =>
        exact absurd ⟨pr.1, pr.2, (joinOutcome_eq_some ps n.supportedApplications pr.1 pr.2).mp
          (by rw [ho])⟩ hne
  · intro s' h'
    rw [hok] at h'
    obtain rfl := Except.ok.inj h'
    unfold joinNodesF
    rw [h1, h2]
    simp [List.map_map, Function.comp, joinNodeUpd_idem]

/-- C5 witness. -/
theorem join_protocol_witness :
    attachedState.connected = true ∧
    attachedState.platformStatus = some (PlatformStatus.mk (some [sessionA])) ∧
    joinNodesF attachedState = .ok { attachedState with
      registeredNodes :=
        attachedState.registeredNodes.map (joinNodeUpd (PlatformStatus.mk (some [sessionA]))) } :=
  ⟨rfl, rfl, (join_protocol attachedState (PlatformStatus.mk (some [sessionA])) rfl rfl).1⟩

/-- C8 witness. -/
theorem deregister_amended_witness :
    connectedState.closing = false ∧
    connectedState.registeredNodes.filter (fun n => n.id != 1) = [] ∧
    (connectedState.connected = true ∨ connectedState.connecting = true) ∧
    (deregisterF connectedState 1).2.2 = 1 :=
  ⟨rfl, rfl, Or.inl rfl,
   (deregister_amended connectedState 1).2.2.2 rfl rfl (Or.inl rfl)⟩

theorem connectF_run (s : ConnState) (h : s.connected = false ∧ s.connecting = false) :
    (connectF s).1 = { s with connecting := true, client := some () } := by
  unfold connectF
  rw [if_pos h]

theorem connectF_skip (s : ConnState) (h : ¬(s.connected = false ∧ s.connecting = false)) :
    (connectF s).1 = s := by
  unfold connectF
  rw [if_neg h]

/-- The invariant maintained by settled register/deregister sequences: not
closing, no connect in flight, no reconnect pending, and the node is
connected — holding a live handle — exactly when a sender is registered. -/
def InvC4 (s : ConnState) : Prop :=
  s.closing = false ∧ s.connecting = false ∧ s.reconnectTimeOut = false ∧
  (s.connected = true ↔ s.registeredNodes ≠ []) ∧ s.client.isSome = s.connected

theorem invC4_init : InvC4 initState := by
  refine ⟨rfl, rfl, rfl, ?_, rfl⟩
  simp [initState]

theorem invC4_step (s : ConnState) (c : RDCall) (h : InvC4 s) : InvC4 (applyCall s c) := by
  obtain ⟨hcl, hcg, htm, hconn, hcli⟩ := h
  cases c with
  | register nid =>
      show InvC4 (settle (registerStep s nid))
      by_cases hemp : s.registeredNodes = []
      · have hc : s.connected = false := by
          cases hb : s.connected
          · rfl
          · exact absurd (hconn.mp hb) (by simp [hemp])
        have hreg : registerStep s nid
            = { s with registeredNodes := [mkSenderNode nid], connecting := true,
                       client := some () } := by
          unfold registerStep registerApplied
          rw [hemp]
          simp only [List.any_nil, Bool.false_eq_true, if_false, List.nil_append,
            List.length_singleton, if_true]
          rw [connectF_run { s with registeredNodes := [mkSenderNode nid] } ⟨hc, hcg⟩]
        rw [hreg]
        unfold settle connectOkStep connectOkApplied joinNodesF
        simp only [if_true, reduceIte, ne_eq, Option.some_ne_none, not_false_iff, and_true,
          and_self]
        refine ⟨hcl, rfl, htm, by simp, rfl⟩
      · have hc : s.connected = true := hconn.mpr hemp
        have hreg : ∃ nodes, nodes ≠ [] ∧ registerStep s nid
            = { s with registeredNodes := nodes } := by
          unfold registerStep registerApplied
          split
          · refine ⟨s.registeredNodes, hemp, ?_⟩
            split
            · rw [connectF_skip _ (by simp [hc])]
            · rfl
          · refine ⟨s.registeredNodes ++ [mkSenderNode nid], by simp, ?_⟩
            split
            · rw [connectF_skip _ (by simp [hc])]
            · rfl
        obtain ⟨nodes, hne, hr⟩ := hreg
        rw [hr]
        unfold settle
        rw [if_neg (by simpa using hcg)]
        exact ⟨hcl, hcg, htm, by simpa [hc] using hne, by simpa using hcli⟩
  | deregister nid =>
      show InvC4 (settle (deregisterF s nid).1)
      unfold deregisterF deregisterChecks
      rw [if_neg (by simpa using hcl)]
      by_cases hcase : (s.registeredNodes.filter fun n => n.id != nid) = []
        ∧ (s.connected = true ∨ s.connecting = true)
      · rw [if_pos (by simpa using hcase)]
        unfold settle disconnectF disconnectE
        simp only []
        rw [if_neg (by simp)]
        refine ⟨hcl, rfl, htm, by simp [hcase.1], rfl⟩
      · rw [if_neg (by simpa using hcase)]
        unfold settle
        rw [if_neg (by simpa using hcg)]
        have hcon2 : s.connected = true ↔
            (s.registeredNodes.filter fun n => n.id != nid) ≠ [] := by
          constructor
          · intro hb
            intro hfe
            exact absurd (Or.inl hb) (fun hor => hcase ⟨hfe, hor⟩)
          · intro hfe
            apply hconn.mpr
            intro he
            rw [he] at hfe
            simp at hfe
        exact ⟨hcl, hcg, htm, hcon2, hcli⟩

theorem invC4_foldl (s : ConnState) (h : InvC4 s) (calls : List RDCall) :
    InvC4 (List.foldl applyCall s calls) := by
  induction calls generalizing s with
  | nil => exact h
  | cons c cs ih => exact ih _ (invC4_step s c h)

theorem invC4_run (calls : List RDCall) : InvC4 (runCalls calls) :=
  invC4_foldl initState invC4_init calls

/-- C4: over every sequence of register/deregister calls (each settling,
with connect attempts succeeding), the node is connected iff the
registered-sender set is non-empty and `closing` is false; moreover from
any such reachable state, a registration into an empty set initiates a
connect attempt (enters Connecting), and a deregistration emptying the set
while connected initiates the disconnect (connection flag cleared, handle
dropped, exactly one disconnect call). -/
theorem register_deregister_connected_iff (calls : List RDCall) :
    ((runCalls calls).connected = true ↔
      ((runCalls calls).registeredNodes ≠ [] ∧ (runCalls calls).closing = false))
  ∧ ((runCalls calls).registeredNodes = [] →
      ∀ nid, (registerStep (runCalls calls) nid).connecting = true)
  ∧ (∀ nid, (runCalls calls).connected = true →
      (runCalls calls).registeredNodes.filter (fun n => n.id != nid) = [] →
      ((deregisterF (runCalls calls) nid).1.connected = false ∧
       (deregisterF (runCalls calls) nid).1.client = none ∧
       (deregisterF (runCalls calls) nid).2.2 = 1)) := by
  obtain ⟨hcl, hcg, htm, hconn, hcli⟩ := invC4_run calls
  refine ⟨⟨fun hb => ⟨hconn.mp hb, hcl⟩, fun hb => hconn.mpr hb.1⟩, ?_, ?_⟩
  · intro hemp nid
    have hc : (runCalls calls).connected = false := by
      cases hb : (runCalls calls).connected
      · rfl
      · exact absurd (hconn.mp hb) (by simp [hemp])
    unfold registerStep registerApplied
    rw [hemp]
    simp only [List.any_nil, Bool.false_eq_true, if_false, List.nil_append,
      List.length_singleton, if_true]
    rw [connectF_run { runCalls calls with registeredNodes := [mkSenderNode nid] } ⟨hc, hcg⟩]
  · intro nid hb hfe
    unfold deregisterF deregisterChecks
    rw [if_neg (by simpa using hcl), if_pos (by simpa [hfe] using Or.inl hb)]
    exact ⟨rfl, rfl, rfl⟩

/-- C4 witness. -/
theorem register_deregister_connected_iff_witness :
    (runCalls []).registeredNodes = [] ∧ (registerStep (runCalls []) 1).connecting = true :=
  ⟨rfl, (register_deregister_connected_iff []).2.1 rfl 1⟩

/-- The transport-handle invariant: while connected or connecting, the
client reference is non-null. -/
def InvClient (s : ConnState) : Prop :=
  (s.connected = true ∨ s.connecting = true) → s.client ≠ none

theorem reconnectF_connected (s : ConnState) : (reconnectF s).connected = false := by
  unfold reconnectF; split <;> rfl

theorem reconnectF_connecting (s : ConnState) : (reconnectF s).connecting = false := by
  unfold reconnectF; split <;> rfl

theorem invClient_disconnectF (s : ConnState) : InvClient (disconnectF s) := by
  intro h
  rcases h with h | h <;> exact absurd h (by simp [disconnectF, disconnectE])

theorem invClient_reconnectF (s : ConnState) : InvClient (reconnectF s) := by
  intro h
  rcases h with h | h
  · rw [reconnectF_connected] at h; cases h
  · rw [reconnectF_connecting] at h; cases h

theorem invClient_connectF (s : ConnState) (h : InvClient s) : InvClient (connectF s).1 := by
  by_cases hc : s.connected = false ∧ s.connecting = false
  · rw [connectF_run s hc]
    intro _
    simp
  · rw [connectF_skip s hc]
    exact h

theorem joinNodesF_ok_fields (s s' : ConnState) (h : joinNodesF s = .ok s') :
    s'.client = s.client ∧ s'.connected = s.connected ∧ s'.connecting = s.connecting ∧
    s'.closing = s.closing ∧ s'.platformStatus = s.platformStatus ∧
    s'.reconnectTimeOut = s.reconnectTimeOut := by
  unfold joinNodesF at h
  split at h
  · obtain rfl := Except.ok.inj h
    exact ⟨rfl, rfl, rfl, rfl, rfl, rfl⟩
  · cases h

theorem invClient_step (s : ConnState) (e : Event) (h : InvClient s) : InvClient (step s e) := by
  cases e with
  | register nid =>
      show InvClient (registerStep s nid)
      unfold registerStep registerApplied
      split <;> split
      · exact invClient_connectF _ h
      · exact h
      · exact invClient_connectF _ h
      · exact h
  | deregister nid =>
      show InvClient (deregisterF s nid).1
      unfold deregisterF deregisterChecks
      split
      · exact h
      · split
        · exact invClient_disconnectF _
        · exact h
  | connectOk ps =>
      show InvClient (connectOkStep s ps)
      unfold connectOkStep
      split
      · next hg =>
          unfold connectOkApplied
          split
          · next s2 hjoin =>
              intro _
              rw [(joinNodesF_ok_fields _ _ hjoin).1]
              exact hg.2
          · exact invClient_reconnectF _
      · exact h
  | connectFail =>
      show InvClient (connectFailStep s)
      unfold connectFailStep
      split
      · exact invClient_reconnectF _
      · exact h
  | statusEv ps =>
      show InvClient (statusEvStep s ps)
      unfold statusEvStep
      split
      · next hg =>
          unfold statusApplied
          split
          · next s2 hjoin =>
              intro _
              rw [(joinNodesF_ok_fields _ _ hjoin).1]
              exact hg.2
          · intro _
            exact hg.2
      · exact h
  | errorEv =>
      show InvClient (errorEvStep s)
      unfold errorEvStep
      split
      · exact invClient_reconnectF _
      · exact h
  | ownerClose =>
      show InvClient (closeHandlerF s)
      unfold closeHandlerF
      exact invClient_disconnectF _
  | timerFire =>
      show InvClient (timerFireStep s)
      unfold timerFireStep
      split
      · exact invClient_connectF _ h
      · exact h

theorem invClient_init : InvClient initState := by
  intro h
  rcases h with h | h <;> simp [initState] at h

theorem invClient_foldl (s : ConnState) (h : InvClient s) (evs : List Event) :
    InvClient (List.foldl step s evs) := by
  induction evs generalizing s with
  | nil => exact h
  | cons e es ih => exact ih _ (invClient_step s e h)

theorem invClient_run (evs : List Event) : InvClient (runEvents evs) :=
  invClient_foldl initState invClient_init evs

/-- C10: in every reachable state of the connection node, `connected`
implies a non-null transport handle, and `launchAsync`,
`joinSessionAsync` and `sendPlatformCommandAsync` — each of which checks
`connected` before touching the handle — never dereference a null
client. -/
theorem reachable_no_null_deref (s : ConnState) (h : Reachable s) :
    (s.connected = true → s.client ≠ none)
  ∧ (∀ app, launchAsync s app ≠ .ok none)
  ∧ (∀ sess app, joinSessionAsync s sess app ≠ .ok none)
  ∧ (∀ cmd rcv, sendPlatformCommandAsync s cmd rcv ≠ .ok none) := by
  obtain ⟨evs, rfl⟩ := h
  have hinv : InvClient (runEvents evs) := invClient_run evs
  have hcc : (runEvents evs).connected = true → (runEvents evs).client ≠ none :=
    fun hb => hinv (Or.inl hb)
  refine ⟨hcc, ?_, ?_, ?_⟩
  · intro app
    unfold launchAsync
    cases hb : (runEvents evs).connected with
    | false => simp
    | true =>
        obtain ⟨u, hu⟩ := Option.ne_none_iff_exists.mp (hcc hb)
        simp [← hu]
  · intro sess app
    unfold joinSessionAsync
    cases hb : (runEvents evs).connected with
    | false => simp
    | true =>
        obtain ⟨u, hu⟩ := Option.ne_none_iff_exists.mp (hcc hb)
        simp [← hu]
  · intro cmd rcv
    unfold sendPlatformCommandAsync
    cases hb : (runEvents evs).connected with
    | false => simp
    | true =>
        obtain ⟨u, hu⟩ := Option.ne_none_iff_exists.mp (hcc hb)
        cases u
        rw [if_neg (by simp)]
        split
        · split <;> simp [← hu]
        · simp [← hu]
        · simp [← hu]
        · simp [← hu]
        · simp [← hu]
        · split
          · split
            · simp [← hu]
            · simp
          · simp
        · simp

/-- C10 witness. -/
theorem reachable_no_null_deref_witness :
    Reachable (runEvents [Event.register 1, Event.connectOk (PlatformStatus.mk none)]) ∧
    (runEvents [Event.register 1, Event.connectOk (PlatformStatus.mk none)]).client ≠ none :=
  ⟨⟨[Event.register 1, Event.connectOk (PlatformStatus.mk none)], rfl⟩,
   (reachable_no_null_deref _
     ⟨[Event.register 1, Event.connectOk (PlatformStatus.mk none)], rfl⟩).1 rfl⟩
